import Mathlib

/-!
Shallow embedding of `bert/transformer.py` (bert-for-tf2): layer-configuration
records with their construction-time validation, and the forward-call wiring of
`ProjectionLayer`, `TransformerSelfAttentionLayer`, `SingleTransformerEncoderLayer`
and `TransformerEncoderLayer`.

Tensors are kept abstract: a type `T` with an `Add` instance (the framework's
elementwise `+`), and each framework-supplied sub-layer (dense, dropout,
layer-norm, multi-head attention) is a field of the enclosing layer's record,
exactly the sub-layers the Python `build` methods create.  The `call` functions
below mirror the Python `call` methods line by line.  `Option Bool` stands for
the Python `training` argument (`none` = the default `training=None`), and
`Option M` for the `mask` argument.
-/

namespace BertTransformer

/-- Python exceptions that `transformer.py` construction code can raise. -/
inductive PyError where
  | valueError (msg : String)
  | assertionError
  | zeroDivisionError
deriving DecidableEq, Repr

/-- True when an `Except` value is an error. -/
def isError {ε α : Type} : Except ε α → Bool
  | .error _ => true
  | .ok _ => false

/-- Fields of `TransformerSelfAttentionLayer.Params` relevant to construction:
`hidden_size`, `num_heads` and the `size_per_head` field inherited from
`AttentionLayer.Params` (whose default is `None`, i.e. `none`).  The dropout and
initializer fields play no role in `_construct` and are omitted. -/
structure TransformerSelfAttentionParams where
  hidden_size : Nat
  num_heads : Nat
  size_per_head : Option Nat
deriving DecidableEq, Repr

/-- Fields of `SingleTransformerEncoderLayer.Params` beyond the inherited ones. -/
structure SingleTransformerEncoderParams extends TransformerSelfAttentionParams where
  intermediate_size : Nat
  intermediate_activation : String
deriving DecidableEq, Repr

/-- Fields of `TransformerEncoderLayer.Params`: the inherited ones plus `num_layers`. -/
structure TransformerEncoderParams extends SingleTransformerEncoderParams where
  num_layers : Nat
deriving DecidableEq, Repr

/-- The error message formatted by both `_construct` methods. -/
def notMultipleMsg (hidden_size num_heads : Nat) : String :=
  "The hidden_size:[" ++ toString hidden_size ++
    "] is not a multiple of num_heads:[" ++ toString num_heads ++ "]"

/-- `TransformerSelfAttentionLayer._construct`: raises `ValueError` when
`hidden_size % num_heads != 0` (a `%` by zero raises `ZeroDivisionError` in
Python), sets `size_per_head = hidden_size // num_heads`, then asserts
`params.size_per_head is None or size_per_head == params.size_per_head`.
Returns the computed `size_per_head`. -/
def TransformerSelfAttentionLayer.construct
    (params : TransformerSelfAttentionParams) : Except PyError Nat :=
  if params.num_heads = 0 then .error .zeroDivisionError
  else if params.hidden_size % params.num_heads ≠ 0 then
    .error (.valueError (notMultipleMsg params.hidden_size params.num_heads))
  else
    let size_per_head := params.hidden_size / params.num_heads
    match params.size_per_head with
    | none => .ok size_per_head
    | some s => if size_per_head = s then .ok size_per_head else .error .assertionError

/-- `SingleTransformerEncoderLayer._construct`: raises `ValueError` when
`hidden_size % num_heads != 0` (a `%` by zero raises `ZeroDivisionError` in
Python) and sets `size_per_head = hidden_size // num_heads`; there is no
further assertion here. Returns the computed `size_per_head`. -/
def SingleTransformerEncoderLayer.construct
    (params : SingleTransformerEncoderParams) : Except PyError Nat :=
  if params.num_heads = 0 then .error .zeroDivisionError
  else if params.hidden_size % params.num_heads ≠ 0 then
    .error (.valueError (notMultipleMsg params.hidden_size params.num_heads))
  else
    .ok (params.hidden_size / params.num_heads)

/-- The Python value passed to `ProjectionLayer.build` as `input_shape`: either a
single shape object (not a `list`) or a `list` of shapes. -/
inductive PyInputShape (S : Type) where
  | single (s : S)
  | shapeList (ss : List S)
deriving DecidableEq, Repr

/-- `ProjectionLayer.build`: first executes
`assert isinstance(input_shape, list) and 2 == len(input_shape)`, and only then
unpacks `out_shape, residual_shape = input_shape` and creates the `input_spec`
and the `dense` / `dropout` / `layer_norm` sub-layers.  The `ok` payload is the
unpacked `(out_shape, residual_shape)` pair reaching sub-layer creation. -/
def ProjectionLayer.build {S : Type} (input_shape : PyInputShape S) :
    Except PyError (S × S) :=
  match input_shape with
  | .single _ => .error .assertionError
  | .shapeList [out_shape, residual_shape] => .ok (out_shape, residual_shape)
  | .shapeList _ => .error .assertionError

/-- Runtime state of a built `ProjectionLayer`: the three sub-layers its `build`
creates.  `dense` is `keras.layers.Dense(units=hidden_size)`, `dropout` is
`keras.layers.Dropout(rate=hidden_dropout)` applied with a `training` argument,
`layer_norm` is `LayerNormalization`. -/
structure ProjectionLayer (T M : Type) where
  dense : T → T
  dropout : T → Option Bool → T
  layer_norm : T → T

/-- `ProjectionLayer.call(inputs, mask=None, training=None)`, translated line by
line: unpack `output, residual = inputs`; `output = dense(output)`;
`output = dropout(output, training=training)`;
`output = layer_norm(output + residual)`; return `output`.
The `mask` argument is accepted and unused, as in the source. -/
def ProjectionLayer.call {T M : Type} [Add T] (self : ProjectionLayer T M)
    (inputs : T × T) (mask : Option M) (training : Option Bool) : T :=
  let output := inputs.1
  let residual := inputs.2
  let output := self.dense output
  let output := self.dropout output training
  let output := self.layer_norm (output + residual)
  output

/-- The multi-head `AttentionLayer` (defined in `bert/attention.py`, outside
`transformer.py`), abstracted as its forward function on
`(inputs, mask, training)`. -/
structure AttentionLayer (T M : Type) where
  call : T → Option M → Option Bool → T

/-- Runtime state of a built `TransformerSelfAttentionLayer`: the `self`
attention sub-layer and the `output` projector its `build` creates. -/
structure TransformerSelfAttentionLayer (T M : Type) where
  attention_layer : AttentionLayer T M
  attention_projector : ProjectionLayer T M

/-- `TransformerSelfAttentionLayer.call(inputs, mask=None, training=None)`:
`attention_head = attention_layer(layer_input, mask=mask, training=training)`;
`attention_output = attention_projector([attention_head, layer_input], mask=mask, training=training)`. -/
def TransformerSelfAttentionLayer.call {T M : Type} [Add T]
    (self : TransformerSelfAttentionLayer T M)
    (inputs : T) (mask : Option M) (training : Option Bool) : T :=
  let layer_input := inputs
  let attention_head := self.attention_layer.call layer_input mask training
  let attention_output :=
    self.attention_projector.call (attention_head, layer_input) mask training
  attention_output

/-- Runtime state of a built `SingleTransformerEncoderLayer`: the `attention`
sub-layer, the `intermediate` dense layer
(`units=intermediate_size`, `activation=intermediate_activation`) and the
`output` projector. -/
structure SingleTransformerEncoderLayer (T M : Type) where
  self_attention_layer : TransformerSelfAttentionLayer T M
  intermediate_layer : T → T
  output_projector : ProjectionLayer T M

/-- `SingleTransformerEncoderLayer.call(inputs, mask=None, training=None)`:
`attention_output = self_attention_layer(layer_input, mask=mask, training=training)`;
`intermediate_output = intermediate_layer(attention_output)`;
`layer_output = output_projector([intermediate_output, attention_output], mask=mask)`
— note the `training` argument is NOT forwarded to the output projector, so the
projector's `training` parameter takes its Python default `None`. -/
def SingleTransformerEncoderLayer.call {T M : Type} [Add T]
    (self : SingleTransformerEncoderLayer T M)
    (inputs : T) (mask : Option M) (training : Option Bool) : T :=
  let layer_input := inputs
  let attention_output := self.self_attention_layer.call layer_input mask training
  let intermediate_output := self.intermediate_layer attention_output
  let layer_output :=
    self.output_projector.call (intermediate_output, attention_output) mask none
  layer_output

/-- `TransformerEncoderLayer.build`: creates the `encoder_layers` list with
`for layer_ndx in range(params.num_heads)` — note the source iterates over
`params.num_heads`, not `params.num_layers`.  `mkLayer n` stands for
`SingleTransformerEncoderLayer.from_params(self.params, name="layer_{n}")`,
the freshly created block for index `n`. -/
def TransformerEncoderLayer.build {T M : Type} (params : TransformerEncoderParams)
    (mkLayer : Nat → SingleTransformerEncoderLayer T M) :
    List (SingleTransformerEncoderLayer T M) :=
  (List.range params.num_heads).map mkLayer

/-- The loop body of `TransformerEncoderLayer.call`: starting from
`layer_output = inputs`, applies each encoder layer to the previous
`layer_output` and appends every intermediate result to `layer_outputs`.
Returns `(final layer_output, layer_outputs)`. -/
def TransformerEncoderLayer.loop {T M : Type} [Add T]
    (mask : Option M) (training : Option Bool) :
    List (SingleTransformerEncoderLayer T M) → T → T × List T
  | [], layer_output => (layer_output, [])
  | encoder_layer :: rest, layer_output =>
    let next := encoder_layer.call layer_output mask training
    let r := TransformerEncoderLayer.loop mask training rest next
    (r.1, next :: r.2)

/-- `TransformerEncoderLayer.call(inputs, mask=None, training=None)`: runs the
loop over `encoder_layers` and returns only the final `layer_output`. -/
def TransformerEncoderLayer.call {T M : Type} [Add T]
    (encoder_layers : List (SingleTransformerEncoderLayer T M))
    (inputs : T) (mask : Option M) (training : Option Bool) : T :=
  (TransformerEncoderLayer.loop mask training encoder_layers inputs).1

/-! Shape-level predicates on the abstract tensor type: `shape` assigns each
tensor its framework shape, and the predicates state the documented shape
behaviour of the framework primitives the layers are wired from. -/

/-- `f` maps every tensor to one of the same shape (layer-norm, and each whole
encoder sub-layer, have this property). -/
def PreservesShape {T : Type} (shape : T → List Nat) (f : T → T) : Prop :=
  ∀ x, shape (f x) = shape x

/-- A `Dense(units=units)` layer maps a `[batch, seq, d]` tensor to a
`[batch, seq, units]` tensor. -/
def DenseShapeOK {T : Type} (shape : T → List Nat) (units : Nat) (f : T → T) : Prop :=
  ∀ x batch seq d, shape x = [batch, seq, d] → shape (f x) = [batch, seq, units]

/-- `Dropout` preserves the shape of its input for every `training` argument. -/
def DropoutShapeOK {T : Type} (shape : T → List Nat) (f : T → Option Bool → T) : Prop :=
  ∀ x t, shape (f x t) = shape x

/-- Elementwise `+` of two same-shaped tensors has that shape. -/
def AddShapeOK {T : Type} [Add T] (shape : T → List Nat) : Prop :=
  ∀ x y : T, shape x = shape y → shape (x + y) = shape x

/-- Multi-head attention (heads concatenated back to `hidden` features, as
`num_heads * size_per_head = hidden_size` under the divisibility invariant)
maps a `[batch, seq, hidden]` tensor to a `[batch, seq, hidden]` tensor. -/
def AttentionShapeOK {T M : Type} (shape : T → List Nat) (hidden : Nat)
    (a : AttentionLayer T M) : Prop :=
  ∀ x mask training batch seq,
    shape x = [batch, seq, hidden] → shape (a.call x mask training) = [batch, seq, hidden]

/-- A built `ProjectionLayer`'s sub-layers have their documented shape
behaviour, with `dense` having `units = hidden` (`hidden_size`). -/
def ProjectionShapeOK {T M : Type} (shape : T → List Nat) (hidden : Nat)
    (p : ProjectionLayer T M) : Prop :=
  DenseShapeOK shape hidden p.dense ∧ DropoutShapeOK shape p.dropout ∧
    PreservesShape shape p.layer_norm

/-- A built `SingleTransformerEncoderLayer`'s sub-layers have their documented
shape behaviour: attention keeps `[batch, seq, hidden]`, both projectors project
back to `hidden` features, the intermediate dense layer has
`units = inter` (`intermediate_size`). -/
def BlockShapeOK {T M : Type} (shape : T → List Nat) (hidden inter : Nat)
    (l : SingleTransformerEncoderLayer T M) : Prop :=
  AttentionShapeOK shape hidden l.self_attention_layer.attention_layer ∧
  ProjectionShapeOK shape hidden l.self_attention_layer.attention_projector ∧
  DenseShapeOK shape inter l.intermediate_layer ∧
  ProjectionShapeOK shape hidden l.output_projector

/-! Concrete instantiations over `T = Int`, `M = Unit`, used to evaluate the
wiring on concrete inputs: all framework primitives are the identity, so a
projection computes `output + residual`. -/

/-- A projection layer whose dense, dropout and layer-norm are the identity:
its `call` returns `output + residual`. -/
def idProjection : ProjectionLayer Int Unit :=
  ⟨fun x => x, fun x _ => x, fun x => x⟩

/-- An attention layer returning its input unchanged. -/
def idAttention : AttentionLayer Int Unit :=
  ⟨fun x _ _ => x⟩

/-- A concrete encoder block built from `idAttention` / `idProjection` and an
identity intermediate layer; its `call` maps `x` to `4 * x` (each of the two
projections doubles its input). -/
def intBlock : SingleTransformerEncoderLayer Int Unit :=
  ⟨⟨idAttention, idProjection⟩, fun x => x, idProjection⟩

/-- A valid configuration with `num_layers = 2` and `num_heads = 4`
(`hidden_size = 8` is divisible by `num_heads = 4`). -/
def c1Params : TransformerEncoderParams :=
  ⟨⟨⟨8, 4, none⟩, 32, "gelu"⟩, 2⟩

/-- A valid configuration with `num_layers = 1` and `num_heads = 2`
(`hidden_size = 2` is divisible by `num_heads = 2`). -/
def c2Params : TransformerEncoderParams :=
  ⟨⟨⟨2, 2, none⟩, 8, "gelu"⟩, 1⟩

/-- A constant shape function on the concrete tensor type, standing for a fixed
`[batch, seq, hidden] = [2, 3, 4]` shape. -/
def constShape (_ : Int) : List Nat := [2, 3, 4]

/-! Helper lemmas for the shape-preservation claim. -/

/-- Shape of a projection call: if the first input has shape `[batch, seq, d]`
and the residual has shape `[batch, seq, hidden]`, the result has shape
`[batch, seq, hidden]`. -/
theorem projection_call_shape {T M : Type} [Add T] (shape : T → List Nat) (hidden : Nat)
    (p : ProjectionLayer T M) (hp : ProjectionShapeOK shape hidden p) (hadd : AddShapeOK shape)
    (o r : T) (mask : Option M) (training : Option Bool) (batch seq d : Nat)
    (ho : shape o = [batch, seq, d]) (hr : shape r = [batch, seq, hidden]) :
    shape (p.call (o, r) mask training) = [batch, seq, hidden] := by
  obtain ⟨hdense, hdrop, hln⟩ := hp
  have h1 : shape (p.dense o) = [batch, seq, hidden] := hdense o batch seq d ho
  have h2 : shape (p.dropout (p.dense o) training) = [batch, seq, hidden] :=
    (hdrop (p.dense o) training).trans h1
  have h3 : shape (p.dropout (p.dense o) training + r) = [batch, seq, hidden] :=
    (hadd _ r (h2.trans hr.symm)).trans h2
  simp only [ProjectionLayer.call]
  rw [hln]
  exact h3

/-- Shape of one encoder block's call: a `[batch, seq, hidden]` input yields a
`[batch, seq, hidden]` output. -/
theorem block_call_shape {T M : Type} [Add T] (shape : T → List Nat) (hidden inter : Nat)
    (l : SingleTransformerEncoderLayer T M) (hl : BlockShapeOK shape hidden inter l)
    (hadd : AddShapeOK shape) (x : T) (mask : Option M) (training : Option Bool)
    (batch seq : Nat) (hx : shape x = [batch, seq, hidden]) :
    shape (l.call x mask training) = [batch, seq, hidden] := by
  obtain ⟨hatt, hattproj, hinter, houtproj⟩ := hl
  have h1 : shape (l.self_attention_layer.attention_layer.call x mask training) =
      [batch, seq, hidden] := hatt x mask training batch seq hx
  have h2 : shape (l.self_attention_layer.call x mask training) = [batch, seq, hidden] := by
    simpa [TransformerSelfAttentionLayer.call] using
      projection_call_shape shape hidden _ hattproj hadd _ x mask training batch seq hidden h1 hx
  have h3 : shape (l.intermediate_layer (l.self_attention_layer.call x mask training)) =
      [batch, seq, inter] := hinter _ batch seq hidden h2
  have h4 := projection_call_shape shape hidden _ houtproj hadd _ _ mask none batch seq inter h3 h2
  simpa [SingleTransformerEncoderLayer.call] using h4

/-! Theorems settling the claims. -/

/-- C3 counterexample: the claim says construction fails if and only if
`hidden_size` is not divisible by `num_heads`, but at the concrete input
`hidden_size = 4`, `num_heads = 2`, `size_per_head = 3` the divisibility holds
and `TransformerSelfAttentionLayer` construction still fails (the
`size_per_head` assertion). -/
theorem construct_fails_despite_divisible :
    (4 % 2 = 0) ∧
    isError (TransformerSelfAttentionLayer.construct ⟨4, 2, some 3⟩) = true := by
  decide

/-- C3 amended: with `size_per_head` left at its default `None` and
`num_heads > 0`, construction of `TransformerSelfAttentionLayer` (resp.
`SingleTransformerEncoderLayer`) fails exactly when `hidden_size` is not
divisible by `num_heads`; in particular `hidden_size = 10`, `num_heads = 3`
fails. -/
theorem construct_error_iff_not_divisible
    (p : TransformerSelfAttentionParams) (q : SingleTransformerEncoderParams)
    (hp : p.size_per_head = none) (hn : 0 < p.num_heads) (hq : 0 < q.num_heads) :
    (isError (TransformerSelfAttentionLayer.construct p) = true ↔
      p.hidden_size % p.num_heads ≠ 0) ∧
    (isError (SingleTransformerEncoderLayer.construct q) = true ↔
      q.hidden_size % q.num_heads ≠ 0) ∧
    isError (TransformerSelfAttentionLayer.construct ⟨10, 3, none⟩) = true := by
  refine ⟨?_, ?_, by decide⟩
  · have hn' : p.num_heads ≠ 0 := Nat.pos_iff_ne_zero.mp hn
    simp only [TransformerSelfAttentionLayer.construct, hn', if_false, hp]
    split_ifs with h <;> simp [isError, h]
  · have hq' : q.num_heads ≠ 0 := Nat.pos_iff_ne_zero.mp hq
    simp only [SingleTransformerEncoderLayer.construct, hq', if_false]
    split_ifs with h <;> simp [isError, h]

/-- Witness for `construct_error_iff_not_divisible` at the concrete inputs
`(hidden_size, num_heads) = (12, 3)`. -/
theorem construct_error_iff_not_divisible_witness :
    (isError (TransformerSelfAttentionLayer.construct ⟨12, 3, none⟩) = true ↔
      (12 : Nat) % 3 ≠ 0) ∧
    (isError (SingleTransformerEncoderLayer.construct ⟨⟨12, 3, none⟩, 48, "gelu"⟩) = true ↔
      (12 : Nat) % 3 ≠ 0) ∧
    isError (TransformerSelfAttentionLayer.construct ⟨10, 3, none⟩) = true :=
  construct_error_iff_not_divisible ⟨12, 3, none⟩ ⟨⟨12, 3, none⟩, 48, "gelu"⟩ rfl
    (by decide) (by decide)

/-- C4: for every `(hidden_size, num_heads)` with `num_heads > 0` and
`hidden_size % num_heads = 0` (and `size_per_head` at its default `None`),
construction of both `TransformerSelfAttentionLayer` and
`SingleTransformerEncoderLayer` succeeds and sets
`size_per_head = hidden_size / num_heads`. -/
theorem construct_success_divisible (hs n i : Nat) (act : String)
    (hn : 0 < n) (hd : hs % n = 0) :
    TransformerSelfAttentionLayer.construct ⟨hs, n, none⟩ = .ok (hs / n) ∧
    SingleTransformerEncoderLayer.construct ⟨⟨hs, n, none⟩, i, act⟩ = .ok (hs / n) := by
  have hn' : n ≠ 0 := Nat.pos_iff_ne_zero.mp hn
  constructor <;>
    simp [TransformerSelfAttentionLayer.construct, SingleTransformerEncoderLayer.construct,
      hn', hd]

/-- Witness for `construct_success_divisible` at
`(hidden_size, num_heads, intermediate_size) = (12, 3, 48)`. -/
theorem construct_success_divisible_witness :
    TransformerSelfAttentionLayer.construct ⟨12, 3, none⟩ = .ok 4 ∧
    SingleTransformerEncoderLayer.construct ⟨⟨12, 3, none⟩, 48, "gelu"⟩ = .ok 4 :=
  construct_success_divisible 12 3 48 "gelu" (by decide) (by decide)

/-- C8: even when `hidden_size` is divisible by `num_heads`, construction of
`TransformerSelfAttentionLayer` fails with an assertion error whenever the
configuration sets `size_per_head` to a value different from
`hidden_size / num_heads` — the divisibility rule is not the only validation. -/
theorem construct_asserts_size_per_head (hs n s : Nat)
    (hn : 0 < n) (hd : hs % n = 0) (hne : s ≠ hs / n) :
    TransformerSelfAttentionLayer.construct ⟨hs, n, some s⟩ = .error .assertionError := by
  have hn' : n ≠ 0 := Nat.pos_iff_ne_zero.mp hn
  have hne' : hs / n ≠ s := Ne.symm hne
  simp [TransformerSelfAttentionLayer.construct, hn', hd, hne']

/-- Witness for `construct_asserts_size_per_head` at
`(hidden_size, num_heads, size_per_head) = (4, 2, 3)`. -/
theorem construct_asserts_size_per_head_witness :
    TransformerSelfAttentionLayer.construct ⟨4, 2, some 3⟩ = .error .assertionError :=
  construct_asserts_size_per_head 4 2 3 (by decide) (by decide) (by decide)

/-- C1 (code bug): at the valid configuration `c1Params` with `num_layers = 2`
and `num_heads = 4`, `TransformerEncoderLayer.build` creates 4 encoder blocks —
its loop iterates over `range(params.num_heads)`, not `range(params.num_layers)`
— so the stack does not have `num_layers` blocks. -/
theorem encoder_build_counts_num_heads :
    c1Params.num_layers = 2 ∧ c1Params.num_heads = 4 ∧
    SingleTransformerEncoderLayer.construct c1Params.toSingleTransformerEncoderParams =
      .ok 2 ∧
    (TransformerEncoderLayer.build c1Params (fun _ => intBlock)).length = 4 :=
  ⟨rfl, rfl, rfl, rfl⟩

/-- C2 (code bug): at the valid configuration `c2Params` with `num_layers = 1`
and `num_heads = 2`, the built stack applies `intBlock` twice (output `16` at
input `1`), which differs from the single block's direct output `4`. -/
theorem encoder_stack_of_one_differs_from_single :
    c2Params.num_layers = 1 ∧
    TransformerEncoderLayer.call (TransformerEncoderLayer.build c2Params (fun _ => intBlock))
      (1 : Int) none none = 16 ∧
    SingleTransformerEncoderLayer.call intBlock (1 : Int) none none = 4 ∧
    (16 : Int) ≠ 4 :=
  ⟨rfl, rfl, rfl, by decide⟩

/-- C5: when every framework primitive in every block of the stack has its
documented shape behaviour (attention and both projections return to `hidden`
features, the intermediate dense layer to `inter` features, dropout, layer-norm
and `+` preserve shapes), `TransformerEncoderLayer.call` maps every
`[batch, seq, hidden]` input to a `[batch, seq, hidden]` output, whatever the
number of blocks in the stack. -/
theorem encoder_stack_preserves_shape {T M : Type} [Add T] (shape : T → List Nat)
    (hidden inter : Nat) (hadd : AddShapeOK shape) (mask : Option M)
    (training : Option Bool) (batch seq : Nat) :
    ∀ layers : List (SingleTransformerEncoderLayer T M),
      (∀ l ∈ layers, BlockShapeOK shape hidden inter l) →
      ∀ x : T, shape x = [batch, seq, hidden] →
        shape (TransformerEncoderLayer.call layers x mask training) =
          [batch, seq, hidden] := by
  intro layers
  induction layers with
  | nil =>
    intro _ x hx
    simpa [TransformerEncoderLayer.call, TransformerEncoderLayer.loop] using hx
  | cons l rest ih =>
    intro hmem x hx
    have hstep := block_call_shape shape hidden inter l (hmem l (List.mem_cons_self l rest))
      hadd x mask training batch seq hx
    have htail := ih (fun a ha => hmem a (List.mem_cons_of_mem l ha))
      (l.call x mask training) hstep
    simpa [TransformerEncoderLayer.call, TransformerEncoderLayer.loop] using htail

/-- Witness for `encoder_stack_preserves_shape`: the concrete one-block stack
`[intBlock]` over `constShape`, at input `0` of shape `[2, 3, 4]`. -/
theorem encoder_stack_preserves_shape_witness :
    constShape (TransformerEncoderLayer.call [intBlock] (0 : Int) (none : Option Unit) none) =
      [2, 3, 4] := by
  have hblock : BlockShapeOK constShape 4 4 intBlock := by
    refine ⟨?_, ⟨?_, ?_, ?_⟩, ?_, ⟨?_, ?_, ?_⟩⟩ <;> intros <;>
      simp_all [constShape, intBlock, idProjection, idAttention,
        AttentionShapeOK, DenseShapeOK, DropoutShapeOK, PreservesShape]
  exact encoder_stack_preserves_shape constShape 4 4 (fun x y h => rfl) none none 2 3
    [intBlock]
    (by
      intro l hl
      simp only [List.mem_singleton] at hl
      subst hl
      exact hblock)
    0 rfl

/-- C6: `ProjectionLayer.call` on `(output, residual)` applies, in order, the
dense transform to `output`, then dropout (with the given `training` argument),
then addition of `residual`, then layer normalization. -/
theorem projection_call_order {T M : Type} [Add T] (p : ProjectionLayer T M)
    (output residual : T) (mask : Option M) (training : Option Bool) :
    p.call (output, residual) mask training =
      p.layer_norm (p.dropout (p.dense output) training + residual) :=
  rfl

/-- C7: `SingleTransformerEncoderLayer.call` composes, in order, the
self-attention sublayer (itself the multi-head attention followed by its
projection with the layer input as residual), then the intermediate dense
layer, then the output projection with the attention output as residual. -/
theorem single_encoder_call_order {T M : Type} [Add T]
    (l : SingleTransformerEncoderLayer T M) (x : T) (mask : Option M)
    (training : Option Bool) :
    l.self_attention_layer.call x mask training =
      l.self_attention_layer.attention_projector.call
        (l.self_attention_layer.attention_layer.call x mask training, x) mask training ∧
    l.call x mask training =
      l.output_projector.call
        (l.intermediate_layer (l.self_attention_layer.call x mask training),
          l.self_attention_layer.call x mask training) mask none :=
  ⟨rfl, rfl⟩

/-- C9: `SingleTransformerEncoderLayer.call` forwards its `training` argument to
the self-attention sublayer (and hence to its projection), but calls the output
projector with `training = None`; hence, whenever the output projector's dropout
is the identity at `training = None` (inference-mode behaviour), the block's
result applies no dropout in its final projection, for every `training`
argument. -/
theorem encoder_block_final_dropout_inert {T M : Type} [Add T]
    (l : SingleTransformerEncoderLayer T M)
    (hdrop : ∀ x : T, l.output_projector.dropout x none = x)
    (x : T) (mask : Option M) (training : Option Bool) :
    l.call x mask training =
      l.output_projector.layer_norm
        (l.output_projector.dense
            (l.intermediate_layer (l.self_attention_layer.call x mask training)) +
          l.self_attention_layer.call x mask training) := by
  simp [SingleTransformerEncoderLayer.call, ProjectionLayer.call, hdrop]

/-- Witness for `encoder_block_final_dropout_inert` at `intBlock`, input `1`,
`training = some true`. -/
theorem encoder_block_final_dropout_inert_witness :
    SingleTransformerEncoderLayer.call intBlock (1 : Int) none (some true) =
      intBlock.output_projector.layer_norm
        (intBlock.output_projector.dense
            (intBlock.intermediate_layer
              (intBlock.self_attention_layer.call (1 : Int) none (some true))) +
          intBlock.self_attention_layer.call (1 : Int) none (some true)) :=
  encoder_block_final_dropout_inert intBlock (fun x => rfl) 1 none (some true)

/-- C10: `ProjectionLayer.build` fails with an assertion error — before any
sub-layer is created — on every `input_shape` argument that is not a
two-element list of shapes. -/
theorem projection_build_requires_pair {S : Type} (input_shape : PyInputShape S)
    (h : ∀ s1 s2 : S, input_shape ≠ .shapeList [s1, s2]) :
    ProjectionLayer.build input_shape = .error .assertionError := by
  cases input_shape with
  | single s => rfl
  | shapeList ss =>
    match ss with
    | [] => rfl
    | [a] => rfl
    | [a, b] => exact absurd rfl (h a b)
    | a :: b :: c :: rest => rfl

/-- Witness for `projection_build_requires_pair` at a non-list `input_shape`
(a single shape `[2, 3, 4]`). -/
theorem projection_build_requires_pair_witness :
    ProjectionLayer.build (PyInputShape.single ([2, 3, 4] : List Nat)) =
      .error .assertionError :=
  projection_build_requires_pair _ (fun s1 s2 h => by cases h)

end BertTransformer
